import Mathlib

/-!
Shallow embedding of `filament/src/Engine.cpp` (class `FEngine`): the engine
facade's instance registry, resource lists, generic create/destroy protocol,
shutdown orchestration, driver-thread command loop, parallel gc coordinator,
and small helpers (`streamAlloc`, `createRenderable`).

Conventions:
* C++ pointers are modelled as `Nat`, with `0` playing the role of `nullptr`.
* Side effects that matter to the claims (terminate calls, frees, logging,
  flushes, thread join, ...) are modelled as explicit event traces.
* `ResourceList<T>` is modelled as a list of pointers (the C++ class is a
  set keyed by address; address uniqueness is carried as `Nodup` hypotheses
  where a claim needs it).
-/

namespace Filament

/-- C++ pointer model: `0` is `nullptr`. -/
abbrev Ptr := Nat

/-- Observable effects of the resource-management code paths in `Engine.cpp`. -/
inductive Event where
  /-- `list.remove(ptr)` succeeded inside `terminateAndDestroy`. -/
  | removeRes (p : Ptr)
  /-- `ptr->terminate(*this)` was invoked on a resource. -/
  | terminateRes (p : Ptr)
  /-- `mHeapAllocator.destroy(ptr)` freed a resource. -/
  | freeRes (p : Ptr)
  /-- debug log "object ... doesn't exist!" in `terminateAndDestroy`. -/
  | logNotFound (p : Ptr)
  /-- `ASSERT_PRECONDITION_NON_FATAL` fired in `destroy(const FMaterial*)`. -/
  | nonFatalViolation (p : Ptr)
  /-- one of the internal subsystem `terminate()` calls at the start of
  `shutdown()`: 0 = PostProcessManager, 1 = ResourceAllocator, 2 = DFG,
  3 = RenderableManager, 4 = LightManager, 5 = CameraManager. -/
  | subsystemTerminate (tag : Nat)
  /-- `driver.destroyRenderPrimitive(mFullScreenTriangleRph)` in `shutdown()`. -/
  | destroyRenderPrimitive
  /-- `flushCommandBuffer(mCommandBufferQueue)` in `shutdown()`. -/
  | flush
  /-- the inline `execute()` in `shutdown()` when threading is unavailable. -/
  | executeInline
  /-- `mCommandBufferQueue.requestExit()`. -/
  | requestExit
  /-- `mDriverThread.join()`. -/
  | joinDriverThread
  /-- `mJobSystem.emancipate()`. -/
  | emancipate
  /-- the final `mTerminated = true` write. -/
  | markTerminated
  deriving Repr, DecidableEq

/-- `ResourceList<T>`: ownership set of live resources of one kind. -/
structure ResourceList where
  items : List Ptr
  deriving Repr, DecidableEq

/-- `ResourceList::remove(ptr)`: removes by identity, reports presence. -/
def ResourceList.remove (l : ResourceList) (p : Ptr) : Bool × ResourceList :=
  (l.items.contains p, ⟨l.items.erase p⟩)

/-- `ResourceList::empty()`. -/
def ResourceList.isEmptyList (l : ResourceList) : Bool :=
  l.items.isEmpty

/-- `ResourceList::size()`. -/
def ResourceList.size (l : ResourceList) : Nat :=
  l.items.length

/-- `ResourceList::getListAndClear()`: snapshot the contents and empty the set. -/
def ResourceList.getListAndClear (l : ResourceList) : List Ptr × ResourceList :=
  (l.items, ⟨[]⟩)

/-- `FEngine::terminateAndDestroy(ptr, list)` (Engine.cpp, lines 622-638):
no-op on null; on a successful `remove`, terminate then free; otherwise a
debug log only. Returns the updated list and the event trace. -/
def terminateAndDestroy (ptr : Ptr) (list : ResourceList) : ResourceList × List Event :=
  if ptr = 0 then
    (list, [])
  else
    let r := list.remove ptr
    if r.1 then
      (r.2, [Event.removeRes ptr, Event.terminateRes ptr, Event.freeRes ptr])
    else
      (list, [Event.logNotFound ptr])

/-- `FEngine::cleanupResourceList(list)` (Engine.cpp, lines 603-618):
if non-empty, `getListAndClear` then terminate and free every snapshotted
item (the debug leak log is not modelled as an event). -/
def cleanupResourceList (list : ResourceList) : ResourceList × List Event :=
  if list.isEmptyList then
    (list, [])
  else
    let r := list.getListAndClear
    (r.2, r.1.flatMap (fun p => [Event.terminateRes p, Event.freeRes p]))

/-- The per-material instance registry `mMaterialInstances`
(`tsl::robin_map<FMaterial const*, ResourceList<FMaterialInstance>>`),
modelled as an association list. -/
abbrev MIMap := List (Ptr × ResourceList)

/-- `mMaterialInstances.find(ptr)`. -/
def findInstances (m : MIMap) (p : Ptr) : Option ResourceList :=
  (m.find? (fun kv => kv.1 == p)).map (fun kv => kv.2)

/-- `FEngine::destroy(const FMaterial* ptr)` (Engine.cpp, lines 693-706):
null is a no-op; if the instance registry has an entry for `ptr` whose
instance set is non-empty, report a non-fatal precondition violation and
return with nothing changed; otherwise fall through to
`terminateAndDestroy(ptr, mMaterials)`. The instance map is never mutated. -/
def destroyMaterial (ptr : Ptr) (materials : ResourceList) (mi : MIMap) :
    ResourceList × List Event :=
  if ptr = 0 then
    (materials, [])
  else
    match findInstances mi ptr with
    | some insts =>
      if insts.items.isEmpty then
        terminateAndDestroy ptr materials
      else
        (materials, [Event.nonFatalViolation ptr])
    | none => terminateAndDestroy ptr materials

/-- `FEngine::streamAlloc(size, alignment)` (Engine.cpp, lines 725-731):
sizes above 1024 bytes return null without touching the driver allocator;
otherwise the result is exactly `getDriverApi().allocate(size, alignment)`.
The second component records the calls made to the driver allocator. -/
def streamAlloc (allocate : Nat → Nat → Ptr) (size alignment : Nat) :
    Ptr × List (Nat × Nat) :=
  if size > 1024 then
    (0, [])
  else
    (allocate size alignment, [(size, alignment)])

/-- `FEngine::assertValid(engine)` (Engine.cpp, lines 119-129): under the
registry lock, test membership of the handle in `sEngines`; the
`ASSERT_POSTCONDITION` aborts exactly when the handle is absent. Returns
`(valid, registry)`: the registry is read, never written. -/
def assertValid (registry : List Ptr) (engine : Ptr) : Bool × List Ptr :=
  (registry.contains engine, registry)

/-- `FEngine::create(backend, platform, sharedGLContext)` (Engine.cpp,
lines 67-117), restricted to the driver-startup/registration protocol.
`driverResult` is what `platform->createDriver(...)` produced (`none` on
failure). With threading, `loop()` publishes the driver through the
barrier and `create` bails out with `nullptr` before registration when the
driver is null. Without threading, the driver is created inline and its
result is *not* checked: the instance is registered in `sEngines` and
returned regardless. -/
def createEngine (hasThreading : Bool) (inst : Ptr) (driverResult : Option Ptr)
    (registry : List Ptr) : Option Ptr × List Ptr :=
  if hasThreading then
    match driverResult with
    | none => (none, registry)
    | some _ => (some inst, registry ++ [inst])
  else
    (some inst, registry ++ [inst])

/-- The `FEngine` state that the shutdown path touches: one `ResourceList`
per resource kind (note `mIndirectLights`, `mStreams` and `mSwapChains`
exist but are *not* swept by `shutdown()`), the per-material instance map,
the engine-owned built-in resource pointers, and the termination flag. -/
structure Engine where
  renderers : ResourceList
  views : ResourceList
  scenes : ResourceList
  skyboxes : ResourceList
  indexBuffers : ResourceList
  vertexBuffers : ResourceList
  textures : ResourceList
  renderTargets : ResourceList
  materials : ResourceList
  indirectLights : ResourceList
  streams : ResourceList
  swapChains : ResourceList
  fences : ResourceList
  materialInstances : MIMap
  fullScreenTriangleVb : Ptr
  fullScreenTriangleIb : Ptr
  defaultIblTexture : Ptr
  defaultIbl : Ptr
  defaultMaterial : Ptr
  skyboxMaterial : Ptr
  terminated : Bool
  deriving Repr, DecidableEq

/-- The leaked-resource sweep of `FEngine::shutdown()` (Engine.cpp, lines
278-295): `cleanupResourceList` on renderers, views, scenes, skyboxes;
`destroy(mSkyboxMaterial)`; then index buffers, vertex buffers, textures,
render targets, materials; then every per-material instance list; then
fences. -/
def shutdownSweep (e : Engine) : Engine × List Event :=
  let r1 := cleanupResourceList e.renderers
  let r2 := cleanupResourceList e.views
  let r3 := cleanupResourceList e.scenes
  let r4 := cleanupResourceList e.skyboxes
  let r5 := destroyMaterial e.skyboxMaterial e.materials e.materialInstances
  let r6 := cleanupResourceList e.indexBuffers
  let r7 := cleanupResourceList e.vertexBuffers
  let r8 := cleanupResourceList e.textures
  let r9 := cleanupResourceList e.renderTargets
  let r10 := cleanupResourceList r5.1
  let r12 := cleanupResourceList e.fences
  ({ e with
      renderers := r1.1
      views := r2.1
      scenes := r3.1
      skyboxes := r4.1
      indexBuffers := r6.1
      vertexBuffers := r7.1
      textures := r8.1
      renderTargets := r9.1
      materials := r10.1
      materialInstances :=
        e.materialInstances.map (fun kv => (kv.1, (cleanupResourceList kv.2).1))
      fences := r12.1 },
   r1.2 ++ r2.2 ++ r3.2 ++ r4.2 ++ r5.2 ++ r6.2 ++ r7.2 ++ r8.2 ++ r9.2 ++ r10.2
     ++ e.materialInstances.flatMap (fun kv => (cleanupResourceList kv.2).2)
     ++ r12.2)

/-- The cleanup phase of `FEngine::shutdown()` (Engine.cpp, lines 250-295):
terminate the internal subsystems, destroy the engine's own built-in
resources (full-screen triangle geometry, default environment texture and
light, default material), then run the leaked-resource sweep. -/
def shutdownCleanup (e : Engine) : Engine × List Event :=
  let pre : List Event :=
    [Event.subsystemTerminate 0, Event.subsystemTerminate 1,
     Event.subsystemTerminate 2, Event.subsystemTerminate 3,
     Event.subsystemTerminate 4, Event.subsystemTerminate 5,
     Event.destroyRenderPrimitive]
  let rIb := terminateAndDestroy e.fullScreenTriangleIb e.indexBuffers
  let rVb := terminateAndDestroy e.fullScreenTriangleVb e.vertexBuffers
  let rTex := terminateAndDestroy e.defaultIblTexture e.textures
  let rIbl := terminateAndDestroy e.defaultIbl e.indirectLights
  let rMat := destroyMaterial e.defaultMaterial e.materials e.materialInstances
  let e1 := { e with
    indexBuffers := rIb.1
    vertexBuffers := rVb.1
    textures := rTex.1
    indirectLights := rIbl.1
    materials := rMat.1 }
  let rs := shutdownSweep e1
  (rs.1, pre ++ rIb.2 ++ rVb.2 ++ rTex.2 ++ rIbl.2 ++ rMat.2 ++ rs.2)

/-- `FEngine::shutdown()` (Engine.cpp, lines 241-316): after the cleanup
phase, flush the command buffer (draining the commands the terminations
enqueued; inline `execute()` when threading is unavailable), request exit
of the driver thread, join it (threaded configuration only), emancipate
the calling thread from the job system, and set `mTerminated`. -/
def shutdown (hasThreading : Bool) (e : Engine) : Engine × List Event :=
  let rc := shutdownCleanup e
  ({ rc.1 with terminated := true },
   rc.2 ++ [Event.flush]
     ++ (if hasThreading then [] else [Event.executeInline])
     ++ [Event.requestExit]
     ++ (if hasThreading then [Event.joinDriverThread] else [])
     ++ [Event.emancipate, Event.markTerminated])

/-- A command buffer descriptor (`CommandBufferQueue::Slice`): `bufBegin`
is the `begin` pointer (`0` models a null/empty range), `bufId` identifies
the buffer. -/
structure CmdBuffer where
  bufBegin : Ptr
  bufId : Nat
  deriving Repr, DecidableEq

/-- Observable effects of the driver-thread loop. -/
inductive DrvEvent where
  /-- `mCommandStream.execute(item.begin)`. -/
  | execBuffer (id : Nat)
  /-- `mCommandBufferQueue.releaseBuffer(item)`. -/
  | releaseBuffer (id : Nat)
  /-- `getDriverApi().terminate()` after the loop exits. -/
  | driverTerminate
  deriving Repr, DecidableEq

/-- The body of `FEngine::execute()` (Engine.cpp, lines 733-750) applied
to one batch returned by `waitForCommands()`: each buffer with a non-null
`begin` is executed through the command stream then released; null-begin
buffers are skipped. -/
def executeBatch (buffers : List CmdBuffer) : List DrvEvent :=
  buffers.flatMap (fun item =>
    if item.bufBegin != 0 then
      [DrvEvent.execBuffer item.bufId, DrvEvent.releaseBuffer item.bufId]
    else
      [])

/-- The driver-thread loop of `FEngine::loop()` (Engine.cpp, lines 437-447):
`queue` is the successive results of `waitForCommands()`, in flush order.
`execute()` returns false exactly on an empty batch, breaking the loop,
after which `getDriverApi().terminate()` runs once; the remainder of the
queue is returned unconsumed. -/
def driverLoop : List (List CmdBuffer) → List DrvEvent × List (List CmdBuffer)
  | [] => ([], [])
  | batch :: rest =>
    if batch.isEmpty then
      ([DrvEvent.driverTerminate], rest)
    else
      let r := driverLoop rest
      (executeBatch batch ++ r.1, r.2)

/-- Observable effects of `FEngine::gc()` on the job system. -/
inductive JobEvent where
  /-- `js.createJob()` for the parent. -/
  | createParentJob
  /-- `js.run(jobs::createJob(js, parent, &Mgr::gc, &mgr, em), flag)`:
  `manager` is 0 = renderable, 1 = light, 2 = transform, 3 = camera,
  `em` the shared entity manager, `dontSignal` whether
  `JobSystem::DONT_SIGNAL` was passed. -/
  | runChildJob (manager : Nat) (em : Nat) (dontSignal : Bool)
  /-- `js.runAndWait(parent)`. -/
  | runAndWaitParent
  deriving Repr, DecidableEq

/-- `FEngine::gc()` (Engine.cpp, lines 336-353): create a parent job, run
one child per component manager (renderable, light, transform, camera)
over the shared entity manager `em` with `DONT_SIGNAL`, then
`runAndWait(parent)`. -/
def gcRun (em : Nat) : List JobEvent :=
  [JobEvent.createParentJob,
   JobEvent.runChildJob 0 em true,
   JobEvent.runChildJob 1 em true,
   JobEvent.runChildJob 2 em true,
   JobEvent.runChildJob 3 em true,
   JobEvent.runAndWaitParent]

/-- A transform component as created by `FTransformManager::create(entity,
parent, localTransform)`: parent instance (0 = none) and local transform. -/
structure TransformComponent where
  parentInstance : Nat
  localTransform : List Int
  deriving Repr, DecidableEq

/-- `math::mat4f()`: the identity matrix (row-major entries). -/
def mat4fIdentity : List Int :=
  [1, 0, 0, 0, 0, 1, 0, 0, 0, 0, 1, 0, 0, 0, 0, 1]

/-- The transform manager's component table, keyed by entity. -/
abbrev TransformMap := List (Nat × TransformComponent)

/-- `FTransformManager::hasComponent(entity)`. -/
def hasComponent (tm : TransformMap) (entity : Nat) : Bool :=
  (tm.find? (fun kv => kv.1 == entity)).isSome

/-- `FTransformManager::create(entity, parent, localTransform)`. -/
def transformCreate (tm : TransformMap) (entity parent : Nat) (t : List Int) :
    TransformMap :=
  tm ++ [(entity, ⟨parent, t⟩)]

/-- `FEngine::createRenderable(builder, entity)` (Engine.cpp, lines
588-595): create the renderable component, then, if the entity has no
transform component, `tcm.create(entity, 0, mat4f())`. -/
def createRenderable (renderables : List Nat) (tm : TransformMap) (entity : Nat) :
    List Nat × TransformMap :=
  let renderables2 := renderables ++ [entity]
  if hasComponent tm entity then
    (renderables2, tm)
  else
    (renderables2, transformCreate tm entity 0 mat4fIdentity)

/-! Helper observations over the traces (used to state the properties). -/

/-- Resource pointers on which `terminate()` ran, in trace order. -/
def termPtrs (evs : List Event) : List Ptr :=
  evs.filterMap (fun ev => match ev with
    | Event.terminateRes p => some p
    | _ => none)

/-- Resource pointers freed through the heap allocator, in trace order. -/
def freePtrs (evs : List Event) : List Ptr :=
  evs.filterMap (fun ev => match ev with
    | Event.freeRes p => some p
    | _ => none)

/-- Whether an event belongs to the terminate/cleanup phase of `shutdown()`
(as opposed to the flush / exit-request / join / emancipate / terminated
ordering events). -/
def isCleanupEvent : Event → Bool
  | Event.flush => false
  | Event.executeInline => false
  | Event.requestExit => false
  | Event.joinDriverThread => false
  | Event.emancipate => false
  | Event.markTerminated => false
  | _ => true

/-- Whether the per-material instance set registered for `p` is empty or
absent (the condition `pos == cend() || pos->second.empty()` under which
`destroy(const FMaterial*)` proceeds). -/
def instancesEmptyB (mi : MIMap) (p : Ptr) : Bool :=
  match findInstances mi p with
  | some l => l.items.isEmpty
  | none => true

/-- The order in which `shutdown()`'s leaked-resource sweep terminates and
frees resources: renderers, views, scenes, skyboxes, the skybox's private
material, index buffers, vertex buffers, textures, render targets, the
remaining materials, the per-material instances, fences. -/
def sweepOrder (e : Engine) : List Ptr :=
  e.renderers.items ++ e.views.items ++ e.scenes.items ++ e.skyboxes.items
    ++ [e.skyboxMaterial]
    ++ e.indexBuffers.items ++ e.vertexBuffers.items ++ e.textures.items
    ++ e.renderTargets.items
    ++ e.materials.items.erase e.skyboxMaterial
    ++ e.materialInstances.flatMap (fun kv => kv.2.items)
    ++ e.fences.items

/-- Ids of the buffers executed by the driver loop, in order. -/
def execIds (evs : List DrvEvent) : List Nat :=
  evs.filterMap (fun ev => match ev with
    | DrvEvent.execBuffer i => some i
    | _ => none)

/-- Ids of the buffers released by the driver loop, in order. -/
def releaseIds (evs : List DrvEvent) : List Nat :=
  evs.filterMap (fun ev => match ev with
    | DrvEvent.releaseBuffer i => some i
    | _ => none)

/-- Ids of the non-empty buffers in the order they were flushed. -/
def flushedIds (batches : List (List CmdBuffer)) : List Nat :=
  (((batches.flatMap (fun b => b))).filter
      (fun b => b.bufBegin != 0)).map (fun b => b.bufId)

/-- Whether a job event is a child-job submission. -/
def isChildJob : JobEvent → Bool
  | JobEvent.runChildJob _ _ _ => true
  | _ => false

/-- A concrete engine state whose only live client resource is one leaked
stream (`mStreams = {5}`): `shutdown()` never sweeps `mStreams`. -/
def engineLeakedStream : Engine where
  renderers := ⟨[]⟩
  views := ⟨[]⟩
  scenes := ⟨[]⟩
  skyboxes := ⟨[]⟩
  indexBuffers := ⟨[]⟩
  vertexBuffers := ⟨[]⟩
  textures := ⟨[]⟩
  renderTargets := ⟨[]⟩
  materials := ⟨[]⟩
  indirectLights := ⟨[]⟩
  streams := ⟨[5]⟩
  swapChains := ⟨[]⟩
  fences := ⟨[]⟩
  materialInstances := []
  fullScreenTriangleVb := 0
  fullScreenTriangleIb := 0
  defaultIblTexture := 0
  defaultIbl := 0
  defaultMaterial := 0
  skyboxMaterial := 0
  terminated := false

/-- A concrete engine state with leaks in several swept lists: a renderer,
a view, a skybox, the skybox material 4 (no live instances), another
material 10 with one live instance 6, an index buffer, a texture, a fence. -/
def engineSweepSample : Engine where
  renderers := ⟨[1]⟩
  views := ⟨[2]⟩
  scenes := ⟨[]⟩
  skyboxes := ⟨[3]⟩
  indexBuffers := ⟨[8]⟩
  vertexBuffers := ⟨[]⟩
  textures := ⟨[9]⟩
  renderTargets := ⟨[]⟩
  materials := ⟨[4, 10]⟩
  indirectLights := ⟨[]⟩
  streams := ⟨[]⟩
  swapChains := ⟨[]⟩
  fences := ⟨[7]⟩
  materialInstances := [(4, ⟨[]⟩), (10, ⟨[6]⟩)]
  fullScreenTriangleVb := 0
  fullScreenTriangleIb := 0
  defaultIblTexture := 0
  defaultIbl := 0
  defaultMaterial := 0
  skyboxMaterial := 4
  terminated := false

/-! Shared helper lemmas. -/

theorem terminateAndDestroy_of_mem (p : Ptr) (l : ResourceList) (hp : p ≠ 0)
    (hm : p ∈ l.items) :
    terminateAndDestroy p l =
      (⟨l.items.erase p⟩,
       [Event.removeRes p, Event.terminateRes p, Event.freeRes p]) := by
  simp [terminateAndDestroy, ResourceList.remove, hp, hm]

theorem terminateAndDestroy_of_not_mem (p : Ptr) (l : ResourceList) (hp : p ≠ 0)
    (hm : p ∉ l.items) :
    terminateAndDestroy p l = (l, [Event.logNotFound p]) := by
  simp [terminateAndDestroy, ResourceList.remove, hp, hm]

theorem cleanupResourceList_fst (l : ResourceList) :
    (cleanupResourceList l).1 = ⟨[]⟩ := by
  rcases l with ⟨items⟩
  cases items <;>
    simp [cleanupResourceList, ResourceList.isEmptyList, ResourceList.getListAndClear]

theorem termPtrs_append (a b : List Event) :
    termPtrs (a ++ b) = termPtrs a ++ termPtrs b :=
  List.filterMap_append a b _

theorem freePtrs_append (a b : List Event) :
    freePtrs (a ++ b) = freePtrs a ++ freePtrs b :=
  List.filterMap_append a b _

theorem termPtrs_pairs (xs : List Ptr) :
    termPtrs (xs.flatMap (fun p => [Event.terminateRes p, Event.freeRes p])) = xs := by
  induction xs with
  | nil => rfl
  | cons x rest ih => simp [termPtrs] at ih ⊢; exact ih

theorem freePtrs_pairs (xs : List Ptr) :
    freePtrs (xs.flatMap (fun p => [Event.terminateRes p, Event.freeRes p])) = xs := by
  induction xs with
  | nil => rfl
  | cons x rest ih => simp [freePtrs] at ih ⊢; exact ih

theorem termPtrs_cleanup (l : ResourceList) :
    termPtrs (cleanupResourceList l).2 = l.items := by
  rcases l with ⟨items⟩
  cases items with
  | nil => rfl
  | cons x rest =>
    simpa [cleanupResourceList, ResourceList.isEmptyList, ResourceList.getListAndClear]
      using termPtrs_pairs (x :: rest)

theorem freePtrs_cleanup (l : ResourceList) :
    freePtrs (cleanupResourceList l).2 = l.items := by
  rcases l with ⟨items⟩
  cases items with
  | nil => rfl
  | cons x rest =>
    simpa [cleanupResourceList, ResourceList.isEmptyList, ResourceList.getListAndClear]
      using freePtrs_pairs (x :: rest)

theorem termPtrs_instanceSweep (mi : MIMap) :
    termPtrs (mi.flatMap (fun kv => (cleanupResourceList kv.2).2))
      = mi.flatMap (fun kv => kv.2.items) := by
  induction mi with
  | nil => rfl
  | cons kv rest ih =>
    simp [List.flatMap_cons, termPtrs_append, termPtrs_cleanup, ih]

theorem freePtrs_instanceSweep (mi : MIMap) :
    freePtrs (mi.flatMap (fun kv => (cleanupResourceList kv.2).2))
      = mi.flatMap (fun kv => kv.2.items) := by
  induction mi with
  | nil => rfl
  | cons kv rest ih =>
    simp [List.flatMap_cons, freePtrs_append, freePtrs_cleanup, ih]

theorem destroyMaterial_of_empty (p : Ptr) (mats : ResourceList) (mi : MIMap)
    (hp : p ≠ 0) (hm : p ∈ mats.items) (hi : instancesEmptyB mi p = true) :
    destroyMaterial p mats mi =
      (⟨mats.items.erase p⟩,
       [Event.removeRes p, Event.terminateRes p, Event.freeRes p]) := by
  cases hfi : findInstances mi p with
  | none => simp [destroyMaterial, hp, hfi, terminateAndDestroy_of_mem p mats hp hm]
  | some l =>
    have hi2 : l.items.isEmpty = true := by simpa [instancesEmptyB, hfi] using hi
    simp [destroyMaterial, hp, hfi, hi2, terminateAndDestroy_of_mem p mats hp hm]

theorem destroyMaterial_of_nonempty (p : Ptr) (mats : ResourceList) (mi : MIMap)
    (hp : p ≠ 0) (hi : instancesEmptyB mi p = false) :
    destroyMaterial p mats mi = (mats, [Event.nonFatalViolation p]) := by
  cases hfi : findInstances mi p with
  | none => simp [instancesEmptyB, hfi] at hi
  | some l =>
    have hi2 : l.items.isEmpty = false := by simpa [instancesEmptyB, hfi] using hi
    simp [destroyMaterial, hp, hfi, hi2]

/-! Claim theorems. -/

/-- Claim C1 (corrected), counterexample: in the single-threaded
(no-threading) configuration, with driver creation failing
(`driverResult = none`), the factory does *not* return a null handle and
the instance *is* inserted into the Instance Registry. -/
theorem createEngine_noThreading_cx :
    (createEngine false 7 none []).1 ≠ none
    ∧ (createEngine false 7 none []).2 = [7] := by
  decide

/-- Claim C1 (amended): in the threaded configuration, driver-creation
failure makes `create` return a null handle with the registry unchanged
(no partial registration), and driver-creation success registers the
instance; in the no-threading configuration the driver result is not
checked, so the instance is registered and a non-null handle returned
regardless of the driver result. -/
theorem createEngine_spec (inst : Ptr) (reg : List Ptr) (d : Option Ptr) :
    createEngine true inst none reg = (none, reg)
    ∧ (∀ dv, createEngine true inst (some dv) reg = (some inst, reg ++ [inst]))
    ∧ createEngine false inst d reg = (some inst, reg ++ [inst]) := by
  refine ⟨rfl, fun dv => rfl, ?_⟩
  simp [createEngine]

/-- Claim C3: the generic `destroy` (`terminateAndDestroy(ptr, list)`) is a
no-op on null; when the pointer is present it removes, terminates, frees,
in exactly that order; when non-null but absent it only logs (no terminate,
no free); hence destroying the same pointer twice frees and terminates it
exactly once. -/
theorem terminateAndDestroy_spec (p : Ptr) (l : ResourceList) :
    (p = 0 → terminateAndDestroy p l = (l, []))
    ∧ (p ≠ 0 → p ∈ l.items →
        terminateAndDestroy p l =
          (⟨l.items.erase p⟩,
           [Event.removeRes p, Event.terminateRes p, Event.freeRes p]))
    ∧ (p ≠ 0 → p ∉ l.items →
        terminateAndDestroy p l = (l, [Event.logNotFound p]))
    ∧ (p ≠ 0 → l.items.Nodup → p ∈ l.items →
        (freePtrs ((terminateAndDestroy p l).2
            ++ (terminateAndDestroy p (terminateAndDestroy p l).1).2)).count p = 1
        ∧ (termPtrs ((terminateAndDestroy p l).2
            ++ (terminateAndDestroy p (terminateAndDestroy p l).1).2)).count p = 1) := by
  refine ⟨fun hp => by simp [terminateAndDestroy, hp],
    fun hp hm => terminateAndDestroy_of_mem p l hp hm,
    fun hp hm => terminateAndDestroy_of_not_mem p l hp hm, ?_⟩
  intro hp hnd hm
  rw [terminateAndDestroy_of_mem p l hp hm]
  rw [terminateAndDestroy_of_not_mem p ⟨l.items.erase p⟩ hp
    (by simpa using hnd.not_mem_erase)]
  constructor <;> simp [freePtrs, termPtrs]

/-- Claim C3, witness: a concrete double-destroy of pointer 3 in the list
{3, 4}. -/
theorem terminateAndDestroy_spec_witness :
    (freePtrs ((terminateAndDestroy 3 ⟨[3, 4]⟩).2
        ++ (terminateAndDestroy 3 (terminateAndDestroy 3 ⟨[3, 4]⟩).1).2)).count 3 = 1
    ∧ (termPtrs ((terminateAndDestroy 3 ⟨[3, 4]⟩).2
        ++ (terminateAndDestroy 3 (terminateAndDestroy 3 ⟨[3, 4]⟩).1).2)).count 3 = 1 :=
  (terminateAndDestroy_spec 3 ⟨[3, 4]⟩).2.2.2 (by decide) (by decide) (by decide)

/-- Claim C7: `assertValid` checks membership of the handle in the Instance
Registry under the lock; the fatal `ASSERT_POSTCONDITION` fires if and only
if the handle is not a member, and the registry is left unchanged. -/
theorem assertValid_spec (reg : List Ptr) (p : Ptr) :
    ((assertValid reg p).1 = false ↔ p ∉ reg) ∧ (assertValid reg p).2 = reg := by
  constructor
  · simp [assertValid, List.elem_iff]
  · rfl

/-- Claim C9: `streamAlloc(size, alignment)` returns null for sizes above
1024 bytes without calling the driver allocator, and otherwise returns
exactly `allocate(size, alignment)` (recorded as the single allocator
call). -/
theorem streamAlloc_spec (allocate : Nat → Nat → Ptr) (size alignment : Nat) :
    (size > 1024 → streamAlloc allocate size alignment = (0, []))
    ∧ (size ≤ 1024 →
        streamAlloc allocate size alignment
          = (allocate size alignment, [(size, alignment)])) := by
  constructor
  · intro h
    simp [streamAlloc, h]
  · intro h
    rw [streamAlloc, if_neg (by omega)]

/-- Claim C9, witness: sizes 2000 (rejected, allocator untouched) and 8
(forwarded to the allocator). -/
theorem streamAlloc_spec_witness :
    streamAlloc (fun s a => s + a) 2000 16 = (0, [])
    ∧ streamAlloc (fun s a => s + a) 8 16 = (24, [(8, 16)]) :=
  ⟨(streamAlloc_spec (fun s a => s + a) 2000 16).1 (by decide),
   (streamAlloc_spec (fun s a => s + a) 8 16).2 (by decide)⟩

/-- Claim C10: after `createRenderable(builder, entity)` the entity has a
transform component; if it had none, one is created with parent 0 and the
identity transform; if it had one, the transform map is unchanged. -/
theorem createRenderable_spec (rs : List Nat) (tm : TransformMap) (e : Nat) :
    hasComponent (createRenderable rs tm e).2 e = true
    ∧ (hasComponent tm e = true → (createRenderable rs tm e).2 = tm)
    ∧ (hasComponent tm e = false →
        (createRenderable rs tm e).2 = tm ++ [(e, ⟨0, mat4fIdentity⟩)]) := by
  refine ⟨?_, fun h => by simp [createRenderable, h], fun h => by
    simp [createRenderable, h, transformCreate]⟩
  by_cases h : hasComponent tm e = true
  · simp [createRenderable, h]
  · have h2 : hasComponent tm e = false := by simpa using h
    simp only [createRenderable, h2, Bool.false_eq_true, if_false, transformCreate]
    unfold hasComponent at h2 ⊢
    rw [List.find?_append]
    simp [h2]

/-- Claim C10, witness: entity 5 with an initially empty transform map gets
the identity transform component with no parent. -/
theorem createRenderable_spec_witness :
    hasComponent (createRenderable [] [] 5).2 5 = true
    ∧ (createRenderable ([] : List Nat) ([] : TransformMap) 5).2
        = [(5, ⟨0, mat4fIdentity⟩)] :=
  ⟨(createRenderable_spec [] [] 5).1,
   (createRenderable_spec [] [] 5).2.2 (by decide)⟩

/-- Claim C8: one `gc()` call creates exactly one parent job, submits
exactly four child jobs — renderable (0), light (1), transform (2),
camera (3), each over the shared entity manager with `DONT_SIGNAL` — and
its last action waits on the parent for all children. -/
theorem gcRun_spec (em : Nat) :
    (gcRun em).count JobEvent.createParentJob = 1
    ∧ (gcRun em).filter isChildJob
        = [JobEvent.runChildJob 0 em true, JobEvent.runChildJob 1 em true,
           JobEvent.runChildJob 2 em true, JobEvent.runChildJob 3 em true]
    ∧ (∀ m em2 b, JobEvent.runChildJob m em2 b ∈ gcRun em →
        m < 4 ∧ em2 = em ∧ b = true)
    ∧ (gcRun em).getLast? = some JobEvent.runAndWaitParent := by
  refine ⟨?_, ?_, ?_, rfl⟩
  · simp [gcRun, List.count_cons]
  · simp [gcRun, isChildJob]
  · intro m em2 b hmem
    simp [gcRun] at hmem
    rcases hmem with ⟨rfl, rfl, rfl⟩ | ⟨rfl, rfl, rfl⟩ | ⟨rfl, rfl, rfl⟩ | ⟨rfl, rfl, rfl⟩ <;>
      exact ⟨by omega, rfl, rfl⟩

/-- Claim C8, witness: the transform-manager child job (manager 2) over
entity manager 0 is one of the submitted children, so the characterization
of child jobs applies to it. -/
theorem gcRun_spec_witness :
    2 < 4 ∧ (0 : Nat) = 0 ∧ true = true :=
  (gcRun_spec 0).2.2.1 2 0 true (by decide)

/-- Claim C2: destroying a Material whose registered instance set is
non-empty reports a non-fatal precondition violation and returns with the
Material still in its Resource List (the instance map is never written by
`destroy(const FMaterial*)`, so the instance set is unchanged by
construction); once the instance set is empty, destroy succeeds and
removes the Material from its Resource List. -/
theorem destroyMaterial_spec (mats : ResourceList) (mi : MIMap) (p : Ptr)
    (hp : p ≠ 0) (hm : p ∈ mats.items) :
    (instancesEmptyB mi p = false →
        destroyMaterial p mats mi = (mats, [Event.nonFatalViolation p])
        ∧ p ∈ (destroyMaterial p mats mi).1.items)
    ∧ (instancesEmptyB mi p = true →
        destroyMaterial p mats mi =
          (⟨mats.items.erase p⟩,
           [Event.removeRes p, Event.terminateRes p, Event.freeRes p])
        ∧ (mats.items.Nodup → p ∉ (destroyMaterial p mats mi).1.items)) := by
  constructor
  · intro hi
    have h := destroyMaterial_of_nonempty p mats mi hp hi
    exact ⟨h, by rw [h]; exact hm⟩
  · intro hi
    have h := destroyMaterial_of_empty p mats mi hp hm hi
    refine ⟨h, fun hnd => ?_⟩
    rw [h]
    simpa using hnd.not_mem_erase

/-- Claim C2, witness: material 4 (registered in {4, 10}) with one live
instance 6 is refused with state unchanged; with its instance set empty it
is removed from the material list and terminated and freed. -/
theorem destroyMaterial_spec_witness :
    destroyMaterial 4 ⟨[4, 10]⟩ [(4, ⟨[6]⟩)] = (⟨[4, 10]⟩, [Event.nonFatalViolation 4])
    ∧ destroyMaterial 4 ⟨[4, 10]⟩ [(4, ⟨[]⟩)]
        = (⟨[10]⟩, [Event.removeRes 4, Event.terminateRes 4, Event.freeRes 4]) :=
  ⟨((destroyMaterial_spec ⟨[4, 10]⟩ [(4, ⟨[6]⟩)] 4 (by decide) (by decide)).1
      (by decide)).1,
   (((destroyMaterial_spec ⟨[4, 10]⟩ [(4, ⟨[]⟩)] 4 (by decide) (by decide)).2
      (by decide)).1).trans (by decide)⟩

/-! Driver-loop helper lemmas (claim C5). -/

theorem execIds_append (a b : List DrvEvent) :
    execIds (a ++ b) = execIds a ++ execIds b :=
  List.filterMap_append a b _

theorem releaseIds_append (a b : List DrvEvent) :
    releaseIds (a ++ b) = releaseIds a ++ releaseIds b :=
  List.filterMap_append a b _

theorem execIds_executeBatch (b : List CmdBuffer) :
    execIds (executeBatch b)
      = (b.filter (fun x => x.bufBegin != 0)).map (fun x => x.bufId) := by
  induction b with
  | nil => rfl
  | cons x xs ih =>
    by_cases hx : x.bufBegin = 0 <;>
      simp [executeBatch, execIds, List.filter_cons, hx] at ih ⊢ <;>
      exact ih

theorem releaseIds_executeBatch (b : List CmdBuffer) :
    releaseIds (executeBatch b)
      = (b.filter (fun x => x.bufBegin != 0)).map (fun x => x.bufId) := by
  induction b with
  | nil => rfl
  | cons x xs ih =>
    by_cases hx : x.bufBegin = 0 <;>
      simp [executeBatch, releaseIds, List.filter_cons, hx] at ih ⊢ <;>
      exact ih

theorem execIds_flat (bs : List (List CmdBuffer)) :
    execIds (bs.flatMap executeBatch) = flushedIds bs := by
  induction bs with
  | nil => rfl
  | cons b rest ih =>
    simp only [flushedIds, List.flatMap_cons, execIds_append, execIds_executeBatch,
      List.filter_append, List.map_append] at ih ⊢
    rw [ih]

theorem releaseIds_flat (bs : List (List CmdBuffer)) :
    releaseIds (bs.flatMap executeBatch) = flushedIds bs := by
  induction bs with
  | nil => rfl
  | cons b rest ih =>
    simp only [flushedIds, List.flatMap_cons, releaseIds_append, releaseIds_executeBatch,
      List.filter_append, List.map_append] at ih ⊢
    rw [ih]

theorem count_term_executeBatch (b : List CmdBuffer) :
    (executeBatch b).count DrvEvent.driverTerminate = 0 := by
  induction b with
  | nil => rfl
  | cons x xs ih =>
    by_cases hx : x.bufBegin = 0 <;>
      simp [executeBatch, hx, List.count_append, List.count_cons] at ih ⊢ <;>
      exact ih

theorem count_term_flat (bs : List (List CmdBuffer)) :
    (bs.flatMap executeBatch).count DrvEvent.driverTerminate = 0 := by
  induction bs with
  | nil => rfl
  | cons b rest ih =>
    simp [List.flatMap_cons, List.count_append, count_term_executeBatch, ih]

theorem driverLoop_eq (batches rest : List (List CmdBuffer))
    (h : ∀ b ∈ batches, b ≠ []) :
    driverLoop (batches ++ [] :: rest)
      = (batches.flatMap executeBatch ++ [DrvEvent.driverTerminate], rest) := by
  induction batches with
  | nil => simp [driverLoop]
  | cons b bs ih =>
    have hb : b ≠ [] := h b (List.mem_cons_self b bs)
    have ih2 := ih (fun x hx => h x (List.mem_cons_of_mem b hx))
    simp [driverLoop, List.isEmpty_iff, hb, ih2]

/-- Claim C5: given successive `waitForCommands()` results
`batches ++ [] :: rest` where every batch in `batches` is non-empty, the
driver loop replays the batches in exactly the flushed order, executing
and releasing each non-null buffer exactly once; the loop stops exactly at
the first empty result (leaving `rest` unconsumed) and then invokes the
driver's `terminate()` exactly once, as the last action. -/
theorem driverLoop_spec (batches rest : List (List CmdBuffer))
    (h : ∀ b ∈ batches, b ≠ []) :
    driverLoop (batches ++ [] :: rest)
      = (batches.flatMap executeBatch ++ [DrvEvent.driverTerminate], rest)
    ∧ execIds (driverLoop (batches ++ [] :: rest)).1 = flushedIds batches
    ∧ releaseIds (driverLoop (batches ++ [] :: rest)).1 = flushedIds batches
    ∧ (driverLoop (batches ++ [] :: rest)).1.count DrvEvent.driverTerminate = 1
    ∧ (driverLoop (batches ++ [] :: rest)).1.getLast? = some DrvEvent.driverTerminate := by
  have heq := driverLoop_eq batches rest h
  refine ⟨heq, ?_, ?_, ?_, ?_⟩
  · rw [heq]
    simp [execIds_append, execIds_flat,
      show execIds [DrvEvent.driverTerminate] = [] from rfl]
  · rw [heq]
    simp [releaseIds_append, releaseIds_flat,
      show releaseIds [DrvEvent.driverTerminate] = [] from rfl]
  · rw [heq]
    simp [List.count_append, count_term_flat]
  · rw [heq]
    exact List.getLast?_concat _

/-- Claim C5, witness: two flushed batches (one with a null-begin buffer
skipped), then the exit signal, with one more batch left unconsumed. -/
theorem driverLoop_spec_witness :
    driverLoop ([[⟨1, 10⟩], [⟨0, 11⟩, ⟨2, 12⟩]] ++ [] :: [[⟨3, 13⟩]])
      = ([DrvEvent.execBuffer 10, DrvEvent.releaseBuffer 10,
          DrvEvent.execBuffer 12, DrvEvent.releaseBuffer 12,
          DrvEvent.driverTerminate], [[⟨3, 13⟩]]) :=
  ((driverLoop_spec [[⟨1, 10⟩], [⟨0, 11⟩, ⟨2, 12⟩]] [[⟨3, 13⟩]]
      (by decide)).1).trans (by decide)

/-! Shutdown-phase helper lemmas (claims C4 and C6). -/

theorem cleanupOnly_tad (p : Ptr) (l : ResourceList) :
    ∀ ev ∈ (terminateAndDestroy p l).2, isCleanupEvent ev = true := by
  intro ev hev
  simp only [terminateAndDestroy] at hev
  split at hev
  · simp at hev
  · split at hev
    · simp at hev
      rcases hev with rfl | rfl | rfl <;> rfl
    · simp at hev
      subst hev
      rfl

theorem cleanupOnly_cleanup (l : ResourceList) :
    ∀ ev ∈ (cleanupResourceList l).2, isCleanupEvent ev = true := by
  intro ev hev
  simp only [cleanupResourceList] at hev
  split at hev
  · simp at hev
  · simp only [ResourceList.getListAndClear, List.mem_flatMap] at hev
    obtain ⟨p, _, hev⟩ := hev
    simp at hev
    rcases hev with rfl | rfl <;> rfl

theorem cleanupOnly_dm (p : Ptr) (mats : ResourceList) (mi : MIMap) :
    ∀ ev ∈ (destroyMaterial p mats mi).2, isCleanupEvent ev = true := by
  intro ev hev
  simp only [destroyMaterial] at hev
  split at hev
  · simp at hev
  · split at hev
    · split at hev
      · exact cleanupOnly_tad _ _ ev hev
      · simp at hev
        subst hev
        rfl
    · exact cleanupOnly_tad _ _ ev hev

theorem cleanupOnly_sweep (e : Engine) :
    ∀ ev ∈ (shutdownSweep e).2, isCleanupEvent ev = true := by
  intro ev hev
  have htr : (shutdownSweep e).2
      = (cleanupResourceList e.renderers).2 ++ (cleanupResourceList e.views).2
        ++ (cleanupResourceList e.scenes).2 ++ (cleanupResourceList e.skyboxes).2
        ++ (destroyMaterial e.skyboxMaterial e.materials e.materialInstances).2
        ++ (cleanupResourceList e.indexBuffers).2
        ++ (cleanupResourceList e.vertexBuffers).2
        ++ (cleanupResourceList e.textures).2
        ++ (cleanupResourceList e.renderTargets).2
        ++ (cleanupResourceList
            (destroyMaterial e.skyboxMaterial e.materials e.materialInstances).1).2
        ++ e.materialInstances.flatMap (fun kv => (cleanupResourceList kv.2).2)
        ++ (cleanupResourceList e.fences).2 := rfl
  rw [htr] at hev
  simp only [List.mem_append, or_assoc] at hev
  rcases hev with h | h | h | h | h | h | h | h | h | h | h | h
  · exact cleanupOnly_cleanup _ ev h
  · exact cleanupOnly_cleanup _ ev h
  · exact cleanupOnly_cleanup _ ev h
  · exact cleanupOnly_cleanup _ ev h
  · exact cleanupOnly_dm _ _ _ ev h
  · exact cleanupOnly_cleanup _ ev h
  · exact cleanupOnly_cleanup _ ev h
  · exact cleanupOnly_cleanup _ ev h
  · exact cleanupOnly_cleanup _ ev h
  · exact cleanupOnly_cleanup _ ev h
  · rw [List.mem_flatMap] at h
    obtain ⟨kv, _, h⟩ := h
    exact cleanupOnly_cleanup _ ev h
  · exact cleanupOnly_cleanup _ ev h

theorem cleanupOnly_shutdownCleanup (e : Engine) :
    ∀ ev ∈ (shutdownCleanup e).2, isCleanupEvent ev = true := by
  intro ev hev
  have htr : (shutdownCleanup e).2
      = [Event.subsystemTerminate 0, Event.subsystemTerminate 1,
         Event.subsystemTerminate 2, Event.subsystemTerminate 3,
         Event.subsystemTerminate 4, Event.subsystemTerminate 5,
         Event.destroyRenderPrimitive]
        ++ (terminateAndDestroy e.fullScreenTriangleIb e.indexBuffers).2
        ++ (terminateAndDestroy e.fullScreenTriangleVb e.vertexBuffers).2
        ++ (terminateAndDestroy e.defaultIblTexture e.textures).2
        ++ (terminateAndDestroy e.defaultIbl e.indirectLights).2
        ++ (destroyMaterial e.defaultMaterial e.materials e.materialInstances).2
        ++ (shutdownSweep { e with
              indexBuffers := (terminateAndDestroy e.fullScreenTriangleIb e.indexBuffers).1
              vertexBuffers := (terminateAndDestroy e.fullScreenTriangleVb e.vertexBuffers).1
              textures := (terminateAndDestroy e.defaultIblTexture e.textures).1
              indirectLights := (terminateAndDestroy e.defaultIbl e.indirectLights).1
              materials :=
                (destroyMaterial e.defaultMaterial e.materials e.materialInstances).1 }).2
      := rfl
  rw [htr] at hev
  simp only [List.mem_append, or_assoc] at hev
  rcases hev with h | h | h | h | h | h | h
  · simp at h
    rcases h with rfl | rfl | rfl | rfl | rfl | rfl | rfl <;> rfl
  · exact cleanupOnly_tad _ _ ev h
  · exact cleanupOnly_tad _ _ ev h
  · exact cleanupOnly_tad _ _ ev h
  · exact cleanupOnly_tad _ _ ev h
  · exact cleanupOnly_dm _ _ _ ev h
  · exact cleanupOnly_sweep _ ev h

/-- Claim C6: in every shutdown, the command-buffer flush happens after all
terminate/cleanup work and strictly before exit is requested of the driver
thread; the driver thread is then joined (threaded configuration; in the
no-threading configuration the inline `execute()` drains instead), the
calling thread is emancipated from the job system, and only then is the
engine marked terminated. -/
theorem shutdown_order_spec (t : Bool) (e : Engine) :
    (shutdown t e).2
      = (shutdownCleanup e).2 ++ [Event.flush]
        ++ (if t then [] else [Event.executeInline])
        ++ [Event.requestExit]
        ++ (if t then [Event.joinDriverThread] else [])
        ++ [Event.emancipate, Event.markTerminated]
    ∧ (∀ ev ∈ (shutdownCleanup e).2, isCleanupEvent ev = true)
    ∧ (shutdown t e).1.terminated = true :=
  ⟨rfl, cleanupOnly_shutdownCleanup e, rfl⟩

theorem termPtrs_dmTrace (p : Ptr) :
    termPtrs [Event.removeRes p, Event.terminateRes p, Event.freeRes p] = [p] := rfl

theorem freePtrs_dmTrace (p : Ptr) :
    freePtrs [Event.removeRes p, Event.terminateRes p, Event.freeRes p] = [p] := rfl

theorem termPtrs_cons_remove (p : Ptr) (evs : List Event) :
    termPtrs (Event.removeRes p :: evs) = termPtrs evs := rfl

theorem termPtrs_cons_term (p : Ptr) (evs : List Event) :
    termPtrs (Event.terminateRes p :: evs) = p :: termPtrs evs := rfl

theorem termPtrs_cons_free (p : Ptr) (evs : List Event) :
    termPtrs (Event.freeRes p :: evs) = termPtrs evs := rfl

theorem freePtrs_cons_remove (p : Ptr) (evs : List Event) :
    freePtrs (Event.removeRes p :: evs) = freePtrs evs := rfl

theorem freePtrs_cons_term (p : Ptr) (evs : List Event) :
    freePtrs (Event.terminateRes p :: evs) = freePtrs evs := rfl

theorem freePtrs_cons_free (p : Ptr) (evs : List Event) :
    freePtrs (Event.freeRes p :: evs) = p :: freePtrs evs := rfl

/-- Claim C4 (amended): provided the skybox's private material is live (in
the material list, with no live instances) and resource addresses are not
shared between the swept lists, the shutdown sweep terminates and frees
the leaked resources of the *swept* lists exactly once each, in the order
renderers, views, scenes, skyboxes, skybox material, index buffers,
vertex buffers, textures, render targets, materials, per-material
instances, fences, and leaves each swept Resource List empty. The
indirect-light, stream and swap-chain lists are not swept. -/
theorem shutdownSweep_spec (e : Engine)
    (h0 : e.skyboxMaterial ≠ 0)
    (h1 : e.skyboxMaterial ∈ e.materials.items)
    (h2 : instancesEmptyB e.materialInstances e.skyboxMaterial = true)
    (h3 : (sweepOrder e).Nodup) :
    termPtrs (shutdownSweep e).2 = sweepOrder e
    ∧ freePtrs (shutdownSweep e).2 = sweepOrder e
    ∧ (∀ p ∈ sweepOrder e,
        (termPtrs (shutdownSweep e).2).count p = 1
        ∧ (freePtrs (shutdownSweep e).2).count p = 1)
    ∧ (shutdownSweep e).1.renderers.items = []
    ∧ (shutdownSweep e).1.views.items = []
    ∧ (shutdownSweep e).1.scenes.items = []
    ∧ (shutdownSweep e).1.skyboxes.items = []
    ∧ (shutdownSweep e).1.indexBuffers.items = []
    ∧ (shutdownSweep e).1.vertexBuffers.items = []
    ∧ (shutdownSweep e).1.textures.items = []
    ∧ (shutdownSweep e).1.renderTargets.items = []
    ∧ (shutdownSweep e).1.materials.items = []
    ∧ (∀ kv ∈ (shutdownSweep e).1.materialInstances, kv.2.items = [])
    ∧ (shutdownSweep e).1.fences.items = [] := by
  have hdm := destroyMaterial_of_empty e.skyboxMaterial e.materials e.materialInstances
    h0 h1 h2
  have htr : (shutdownSweep e).2
      = (cleanupResourceList e.renderers).2 ++ (cleanupResourceList e.views).2
        ++ (cleanupResourceList e.scenes).2 ++ (cleanupResourceList e.skyboxes).2
        ++ (destroyMaterial e.skyboxMaterial e.materials e.materialInstances).2
        ++ (cleanupResourceList e.indexBuffers).2
        ++ (cleanupResourceList e.vertexBuffers).2
        ++ (cleanupResourceList e.textures).2
        ++ (cleanupResourceList e.renderTargets).2
        ++ (cleanupResourceList
            (destroyMaterial e.skyboxMaterial e.materials e.materialInstances).1).2
        ++ e.materialInstances.flatMap (fun kv => (cleanupResourceList kv.2).2)
        ++ (cleanupResourceList e.fences).2 := rfl
  have hterm : termPtrs (shutdownSweep e).2 = sweepOrder e := by
    rw [htr, hdm]
    simp [sweepOrder, termPtrs_append, termPtrs_cleanup, termPtrs_instanceSweep,
      termPtrs_dmTrace, termPtrs_cons_remove, termPtrs_cons_term, termPtrs_cons_free]
  have hfree : freePtrs (shutdownSweep e).2 = sweepOrder e := by
    rw [htr, hdm]
    simp [sweepOrder, freePtrs_append, freePtrs_cleanup, freePtrs_instanceSweep,
      freePtrs_dmTrace, freePtrs_cons_remove, freePtrs_cons_term, freePtrs_cons_free]
  refine ⟨hterm, hfree, ?_, ?_, ?_, ?_, ?_, ?_, ?_, ?_, ?_, ?_, ?_, ?_⟩
  · intro p hp
    rw [hterm, hfree]
    exact ⟨List.count_eq_one_of_mem h3 hp, List.count_eq_one_of_mem h3 hp⟩
  · exact congrArg ResourceList.items (cleanupResourceList_fst e.renderers)
  · exact congrArg ResourceList.items (cleanupResourceList_fst e.views)
  · exact congrArg ResourceList.items (cleanupResourceList_fst e.scenes)
  · exact congrArg ResourceList.items (cleanupResourceList_fst e.skyboxes)
  · exact congrArg ResourceList.items (cleanupResourceList_fst e.indexBuffers)
  · exact congrArg ResourceList.items (cleanupResourceList_fst e.vertexBuffers)
  · exact congrArg ResourceList.items (cleanupResourceList_fst e.textures)
  · exact congrArg ResourceList.items (cleanupResourceList_fst e.renderTargets)
  · exact congrArg ResourceList.items (cleanupResourceList_fst _)
  · intro kv hkv
    have hmi : (shutdownSweep e).1.materialInstances
        = e.materialInstances.map (fun kv => (kv.1, (cleanupResourceList kv.2).1)) := rfl
    rw [hmi] at hkv
    rw [List.mem_map] at hkv
    obtain ⟨kv0, _, rfl⟩ := hkv
    exact congrArg ResourceList.items (cleanupResourceList_fst kv0.2)
  · exact congrArg ResourceList.items (cleanupResourceList_fst e.fences)

/-- Claim C4, witness: a concrete engine with leaks in several swept lists
(including the skybox material and a per-material instance) has its sweep
terminate the leaked resources exactly in the documented order. -/
theorem shutdownSweep_spec_witness :
    termPtrs (shutdownSweep engineSweepSample).2 = sweepOrder engineSweepSample :=
  (shutdownSweep_spec engineSweepSample (by decide) (by decide) (by decide)
    (by decide)).1

/-- Claim C4, counterexample: `shutdown()` never sweeps `mStreams` (nor
`mSwapChains` or `mIndirectLights`), so with one leaked stream (pointer 5)
the stream Resource List is *not* empty after shutdown and the leaked
stream is never terminated or freed. -/
theorem shutdown_leaked_stream_cx :
    (shutdown true engineLeakedStream).1.streams.items = [5]
    ∧ (termPtrs (shutdown true engineLeakedStream).2).count 5 = 0
    ∧ (freePtrs (shutdown true engineLeakedStream).2).count 5 = 0 := by
  decide

end Filament
